import Mathlib

/-!
Verification of the scenario/scoring logic of the stock-market education
game (`stock_market_game.py`).  The game state, the scenario list, the
scoring rule executed on "Submit Decision", the chart perturbations and
the rendered page are embedded as executable Lean definitions below, each
translated directly from the Python source.
-/

/-- The entry radio button offers exactly the strings "long", "short", "skip". -/
inductive EntryChoice where
  | long
  | short
  | skip
deriving DecidableEq, Repr

/-- The exit radio button offers exactly the strings "smart", "greedy". -/
inductive ExitChoice where
  | smart
  | greedy
deriving DecidableEq, Repr

/-- The `chart` field of a scenario, dispatched on by `plot_chart`. -/
inductive ChartType where
  | liquidity
  | fvg
  | bos
  | orb
deriving DecidableEq, Repr

/-- One element of the `scenarios` list (a Python dict with six keys). -/
structure Scenario where
  name : String
  description : String
  entry : EntryChoice
  good_exit : String
  bad_exit : String
  chart : ChartType
deriving DecidableEq, Repr

/-- The hardcoded `scenarios` list (lines 23-56 of the source). -/
def scenarios : List Scenario :=
  [ { name := "Liquidity Grab - Short Setup"
    , description := "Price swept above previous high and closed back inside range."
    , entry := EntryChoice.short
    , good_exit := "at previous low"
    , bad_exit := "holding through reversal"
    , chart := ChartType.liquidity }
  , { name := "FVG Long Setup"
    , description := "Price pulled into FVG and bounced."
    , entry := EntryChoice.long
    , good_exit := "at supply zone"
    , bad_exit := "holding through FVG close"
    , chart := ChartType.fvg }
  , { name := "BOS Confirmation"
    , description := "Structure broke to upside after a higher low."
    , entry := EntryChoice.long
    , good_exit := "at next swing high"
    , bad_exit := "entering before BOS"
    , chart := ChartType.bos }
  , { name := "ORB Failure"
    , description := "Price broke opening range high but reversed hard."
    , entry := EntryChoice.long
    , good_exit := "quick scalp on breakout"
    , bad_exit := "holding during pullback"
    , chart := ChartType.orb } ]

/-- The `concepts` dict (lines 10-15), an ordered key/explanation mapping. -/
def concepts : List (String × String) :=
  [ ("Liquidity Grab", "A liquidity grab happens when price moves beyond a recent high/low to trap traders, then reverses.")
  , ("FVG", "Fair Value Gap (FVG) is an imbalance between buyers and sellers visible as a gap in price.")
  , ("BOS", "Break of Structure (BOS) occurs when price breaks a key high or low, indicating a trend change.")
  , ("ORB", "Opening Range Breakout (ORB) is a strategy using the high and low of the first few minutes after market open.") ]

/-- `st.session_state`: `balance` (initialised to 10000 on line 19) and
`scenario_index` (initialised to 0 on line 21). -/
structure SessionState where
  balance : Int
  scenario_index : Nat
deriving DecidableEq, Repr

/-- The freshly initialised session state (lines 18-21). -/
def initState : SessionState := { balance := 10000, scenario_index := 0 }

/-- The scoring rule of the "Submit Decision" block (lines 119-130):
the result message together with the change applied to the balance. -/
def submitResult (scenario : Scenario) (entry : EntryChoice) (exit_choice : ExitChoice) :
    String × Int :=
  if entry = EntryChoice.skip then
    ("Skipped the trade.", 0)
  else if entry ≠ scenario.entry then
    ("Wrong entry type. You entered against the setup.", -300)
  else if exit_choice = ExitChoice.smart then
    ("Smart exit at " ++ scenario.good_exit ++ "!", 500)
  else
    ("Poor exit at " ++ scenario.bad_exit ++ "!", -200)

/-- `current_scenario()`: the scenario at `scenario_index`, or none once the
index reaches the end of the list (the branch condition on line 108). -/
def currentScenario (s : SessionState) : Option Scenario :=
  scenarios[s.scenario_index]?

/-- One press of "Submit Decision".  The button exists only while a scenario
is being shown (line 108), so past the last scenario no step is possible.
Returns the result message and the updated session state (lines 118-133). -/
def step (s : SessionState) (entry : EntryChoice) (exit_choice : ExitChoice) :
    Option (String × SessionState) :=
  match currentScenario s with
  | none => none
  | some scenario =>
      let r := submitResult scenario entry exit_choice
      some (r.1, { balance := s.balance + r.2, scenario_index := s.scenario_index + 1 })

/-- Replay of a sequence of submitted decisions from a given state.  A
decision that finds no scenario on screen has no submit button to press. -/
def runGame : SessionState → List (EntryChoice × ExitChoice) → SessionState
  | s, [] => s
  | s, d :: ds =>
      match step s d.1 d.2 with
      | none => s
      | some (_, s1) => runGame s1 ds

/-- The session states reachable from the initial state by submit presses. -/
inductive Reachable : SessionState → Prop where
  | init : Reachable initState
  | next (s : SessionState) (e : EntryChoice) (x : ExitChoice) (out : String × SessionState) :
      Reachable s → step s e x = some out → Reachable out.2

/-- The game is being played while a scenario renders (line 108 condition). -/
def Playing (s : SessionState) : Prop := s.scenario_index < scenarios.length

/-- The game-over branch renders when no scenario is left (line 135). -/
def GameOver (s : SessionState) : Prop := ¬ Playing s

instance (s : SessionState) : Decidable (Playing s) := by
  unfold Playing; infer_instance

instance (s : SessionState) : Decidable (GameOver s) := by
  unfold GameOver; infer_instance

/-- The chart has 10 points: `x = np.arange(10)`, `size=10` (lines 61-62). -/
abbrev numPoints : Nat := 10

/-- A price series, indexed as the numpy array `price` is. -/
abbrev PriceSeries : Type := Fin numPoints → ℚ

/-- A rendered figure: the plotted series, the horizontal reference lines
in drawing order, the shaded vertical span if any, and the title. -/
structure Chart where
  series : PriceSeries
  hlines : List ℚ
  vspan : Option (ℚ × ℚ)
  title : String

/-- `plot_chart` (lines 59-94): the base random series is a parameter; the
body applies the per-kind perturbation and draws the reference elements.
Sequential in-place numpy updates become sequential function updates. -/
def plot_chart (chart_type : ChartType) (price : PriceSeries) : Chart :=
  match chart_type with
  | ChartType.liquidity =>
      let p1 : PriceSeries := Function.update price 6 (price 6 + 5)
      let p2 : PriceSeries := Function.update p1 7 (p1 7 - 6)
      { series := p2, hlines := [p2 5], vspan := none, title := "Liquidity Grab Example" }
  | ChartType.fvg =>
      let p1 : PriceSeries := Function.update price 4 (price 4 + 5)
      let p2 : PriceSeries := Function.update p1 5 (p1 5 + 7)
      let p3 : PriceSeries := Function.update p2 6 (p2 6 + 3)
      { series := p3, hlines := [], vspan := some (9/2, 11/2), title := "FVG Example" }
  | ChartType.bos =>
      let p : PriceSeries := fun i => if 5 ≤ (i : Nat) then price i + 6 else price i
      { series := p, hlines := [p 4], vspan := none, title := "Break of Structure (BOS)" }
  | ChartType.orb =>
      let lo : ℚ := min (price 0) (min (price 1) (price 2))
      let hi : ℚ := max (price 0) (max (price 1) (price 2))
      let p : PriceSeries := fun i => if 4 ≤ (i : Nat) then price i - 4 else price i
      { series := p, hlines := [lo, hi], vspan := none, title := "Opening Range Breakout (ORB)" }

/-- One element written to the page by `show_game`. -/
inductive RenderItem where
  | title (t : String)
  | subheader (t : String)
  | markdown (t : String)
  | expander (key val : String)
  | header (t : String)
  | text (t : String)
  | chartItem (c : Chart)
  | radioEntry (key : String)
  | radioExit (key : String)
  | successBanner (t : String)
  | errorBanner (t : String)

/-- The banner of the game-over screen (lines 138-141). -/
def gameOverBanner (balance : Int) : RenderItem :=
  if balance > 10000 then
    RenderItem.successBanner "Well done! You made profitable decisions."
  else
    RenderItem.errorBanner "You need more practice. Review the concepts and try again."

/-- `show_game` (lines 97-141): renders the page for the current session
state.  `price` is the random base series drawn inside `plot_chart`;
`decision` is the pair of radio selections when "Submit Decision" was
pressed on this run, `none` otherwise.  Returns the rendered items and
the session state as it stands after the run. -/
def show_game (s : SessionState) (price : PriceSeries)
    (decision : Option (EntryChoice × ExitChoice)) : List RenderItem × SessionState :=
  let base : List RenderItem :=
    [ RenderItem.title "Stock Market Game with Visual Learning"
    , RenderItem.subheader ("Balance: $" ++ toString s.balance)
    , RenderItem.markdown "---"
    , RenderItem.subheader "Market Concepts" ] ++
    (concepts.map fun kv => RenderItem.expander kv.1 kv.2) ++
    [ RenderItem.markdown "---" ]
  match currentScenario s with
  | some scenario =>
      let items := base ++
        [ RenderItem.header scenario.name
        , RenderItem.text scenario.description
        , RenderItem.chartItem (plot_chart scenario.chart price)
        , RenderItem.radioEntry ("entry_" ++ toString s.scenario_index)
        , RenderItem.radioExit ("exit_" ++ toString s.scenario_index) ]
      match decision with
      | none => (items, s)
      | some (e, x) =>
          let r := submitResult scenario e x
          (items ++ [RenderItem.successBanner r.1],
           { balance := s.balance + r.2, scenario_index := s.scenario_index + 1 })
  | none =>
      (base ++
        [ RenderItem.header "Game Over"
        , RenderItem.subheader ("Final Balance: $" ++ toString s.balance)
        , gameOverBanner s.balance ], s)

/-- No scenario in the list asks for a skip entry: every `entry` field is
"long" or "short". -/
theorem scenarios_entry_ne_skip : ∀ sc ∈ scenarios, sc.entry ≠ EntryChoice.skip := by
  decide

/-- C1: submitting an entry in \x7blong, short\x7d that differs from the current
scenario's correct entry yields the wrong-entry message and lowers the
balance by exactly 300, for either exit choice. -/
theorem wrong_entry_loses_300 (s : SessionState) (sc : Scenario)
    (hsc : currentScenario s = some sc) (e : EntryChoice)
    (hskip : e ≠ EntryChoice.skip) (hne : e ≠ sc.entry) (x : ExitChoice) :
    step s e x = some ("Wrong entry type. You entered against the setup.",
      { balance := s.balance - 300, scenario_index := s.scenario_index + 1 }) := by
  unfold step
  rw [hsc]
  simp [submitResult, hskip, hne, sub_eq_add_neg]

/-- Concrete run of C1: entering long on the short setup from the initial
state costs 300. -/
theorem wrong_entry_loses_300_witness :
    step initState EntryChoice.long ExitChoice.smart =
      some ("Wrong entry type. You entered against the setup.",
        { balance := initState.balance - 300, scenario_index := initState.scenario_index + 1 }) :=
  wrong_entry_loses_300 initState (scenarios.get ⟨0, by decide⟩) rfl EntryChoice.long
    (by decide) (by decide) ExitChoice.smart

/-- C2: submitting the current scenario's correct entry yields +500 with the
smart exit (and its good-exit message) and -200 with the greedy exit (and
its bad-exit message). -/
theorem correct_entry_outcomes (s : SessionState) (sc : Scenario)
    (hsc : currentScenario s = some sc) :
    step s sc.entry ExitChoice.smart =
      some ("Smart exit at " ++ sc.good_exit ++ "!",
        { balance := s.balance + 500, scenario_index := s.scenario_index + 1 }) ∧
    step s sc.entry ExitChoice.greedy =
      some ("Poor exit at " ++ sc.bad_exit ++ "!",
        { balance := s.balance - 200, scenario_index := s.scenario_index + 1 }) := by
  have hmem : sc ∈ scenarios := by
    unfold currentScenario at hsc
    exact List.getElem?_mem hsc
  have hskip : sc.entry ≠ EntryChoice.skip := scenarios_entry_ne_skip sc hmem
  constructor <;>
    (unfold step; rw [hsc]; simp [submitResult, hskip, sub_eq_add_neg])

/-- Concrete run of C2: on the first scenario (entry "short"), the smart
exit gains 500 and the greedy exit loses 200. -/
theorem correct_entry_outcomes_witness :
    step initState (scenarios.get ⟨0, by decide⟩).entry ExitChoice.smart =
      some ("Smart exit at " ++ (scenarios.get ⟨0, by decide⟩).good_exit ++ "!",
        { balance := initState.balance + 500, scenario_index := initState.scenario_index + 1 }) ∧
    step initState (scenarios.get ⟨0, by decide⟩).entry ExitChoice.greedy =
      some ("Poor exit at " ++ (scenarios.get ⟨0, by decide⟩).bad_exit ++ "!",
        { balance := initState.balance - 200, scenario_index := initState.scenario_index + 1 }) :=
  correct_entry_outcomes initState (scenarios.get ⟨0, by decide⟩) rfl

/-- C3: submitting "skip" yields the skipped message and leaves the balance
unchanged, for either exit choice. -/
theorem skip_leaves_balance (s : SessionState)
    (h : s.scenario_index < scenarios.length) (x : ExitChoice) :
    step s EntryChoice.skip x =
      some ("Skipped the trade.",
        { balance := s.balance, scenario_index := s.scenario_index + 1 }) := by
  unfold step currentScenario
  rw [List.getElem?_eq_getElem h]
  simp [submitResult]

/-- Concrete run of C3: skipping the first scenario keeps the balance at
10000 and advances the index. -/
theorem skip_leaves_balance_witness :
    step initState EntryChoice.skip ExitChoice.greedy =
      some ("Skipped the trade.",
        { balance := initState.balance, scenario_index := initState.scenario_index + 1 }) :=
  skip_leaves_balance initState (by decide) ExitChoice.greedy

/-- Characterisation of a successful submit press. -/
theorem step_eq_some_iff (s : SessionState) (e : EntryChoice) (x : ExitChoice)
    (out : String × SessionState) :
    step s e x = some out ↔ ∃ sc, currentScenario s = some sc ∧
      out = ((submitResult sc e x).1,
        { balance := s.balance + (submitResult sc e x).2,
          scenario_index := s.scenario_index + 1 }) := by
  unfold step
  cases hc : currentScenario s <;> simp [eq_comm]

/-- While a scenario is left, `current_scenario()` returns it. -/
theorem currentScenario_of_lt (s : SessionState)
    (h : s.scenario_index < scenarios.length) :
    currentScenario s = some (scenarios.get ⟨s.scenario_index, h⟩) := by
  unfold currentScenario
  rw [List.getElem?_eq_getElem h]
  rfl

/-- Past the last scenario, `current_scenario()` returns none. -/
theorem currentScenario_of_ge (s : SessionState)
    (h : scenarios.length ≤ s.scenario_index) :
    currentScenario s = none := by
  unfold currentScenario
  exact List.getElem?_eq_none h

/-- Each successful submit press advances `scenario_index` by exactly 1. -/
theorem step_index (s : SessionState) (e : EntryChoice) (x : ExitChoice)
    (out : String × SessionState) (h : step s e x = some out) :
    out.2.scenario_index = s.scenario_index + 1 := by
  rw [step_eq_some_iff] at h
  obtain ⟨sc, -, rfl⟩ := h
  rfl

/-- Replaying decisions that fit in the scenario list advances the index by
one per decision. -/
theorem runGame_index (ds : List (EntryChoice × ExitChoice)) (s : SessionState)
    (h : s.scenario_index + ds.length ≤ scenarios.length) :
    (runGame s ds).scenario_index = s.scenario_index + ds.length := by
  induction ds generalizing s with
  | nil => simp [runGame]
  | cons d ds ih =>
      have hlt : s.scenario_index < scenarios.length := by
        simp only [List.length_cons] at h; omega
      have hc := currentScenario_of_lt s hlt
      have hstep : step s d.1 d.2 =
          some ((submitResult (scenarios.get ⟨s.scenario_index, hlt⟩) d.1 d.2).1,
            { balance := s.balance +
                (submitResult (scenarios.get ⟨s.scenario_index, hlt⟩) d.1 d.2).2,
              scenario_index := s.scenario_index + 1 }) := by
        unfold step
        rw [hc]
      unfold runGame
      rw [hstep, ih]
      · simp only [List.length_cons]
        omega
      · simp only [List.length_cons] at h
        simp only []
        omega

/-- C4: every submit press advances `scenario_index` by exactly 1 (skip
included); from the initial state, a submit press is available after each of
the first 3 decisions and exactly 4 presses are possible, after which
`current_scenario()` returns none and the game-over branch renders. -/
theorem submit_counts :
    (∀ s e x out, step s e x = some out → out.2.scenario_index = s.scenario_index + 1)
    ∧ (∀ ds : List (EntryChoice × ExitChoice), ds.length ≤ scenarios.length →
        (runGame initState ds).scenario_index = ds.length)
    ∧ (∀ ds : List (EntryChoice × ExitChoice), ds.length < scenarios.length →
        ∀ e x, (step (runGame initState ds) e x).isSome)
    ∧ (∀ ds : List (EntryChoice × ExitChoice), ds.length = scenarios.length →
        currentScenario (runGame initState ds) = none) := by
  have hidx : ∀ ds : List (EntryChoice × ExitChoice), ds.length ≤ scenarios.length →
      (runGame initState ds).scenario_index = ds.length := by
    intro ds h
    have := runGame_index ds initState (by simpa [initState] using h)
    simpa [initState] using this
  refine ⟨step_index, hidx, ?_, ?_⟩
  · intro ds h e x
    have hlt : (runGame initState ds).scenario_index < scenarios.length := by
      rw [hidx ds (le_of_lt h)]
      exact h
    unfold step
    rw [currentScenario_of_lt _ hlt]
    rfl
  · intro ds h
    exact currentScenario_of_ge _ (by rw [hidx ds (le_of_eq h), h])

/-- Concrete run of C4: four skips exhaust the scenario list and leave the
game-over branch. -/
theorem submit_counts_witness :
    (runGame initState [(EntryChoice.skip, ExitChoice.smart), (EntryChoice.skip, ExitChoice.smart),
        (EntryChoice.skip, ExitChoice.smart), (EntryChoice.skip, ExitChoice.smart)]).scenario_index =
      [(EntryChoice.skip, ExitChoice.smart), (EntryChoice.skip, ExitChoice.smart),
        (EntryChoice.skip, ExitChoice.smart), (EntryChoice.skip, ExitChoice.smart)].length
    ∧ currentScenario (runGame initState [(EntryChoice.skip, ExitChoice.smart),
        (EntryChoice.skip, ExitChoice.smart), (EntryChoice.skip, ExitChoice.smart),
        (EntryChoice.skip, ExitChoice.smart)]) = none
    ∧ (step (runGame initState ([] : List (EntryChoice × ExitChoice)))
        EntryChoice.skip ExitChoice.smart).isSome :=
  ⟨submit_counts.2.1 _ (by decide), submit_counts.2.2.2 _ (by decide),
   submit_counts.2.2.1 [] (by decide) EntryChoice.skip ExitChoice.smart⟩

/-- C6: every reachable session state has `scenario_index` between 0 and the
number of scenarios; the playing branch renders exactly when the index is
below 4 and the game-over branch exactly when it equals 4; a submit press
exists only while playing and strictly increases the index, and no press is
possible from the game-over state. -/
theorem state_machine_invariant :
    (∀ s, Reachable s → s.scenario_index ≤ scenarios.length
       ∧ (Playing s ↔ s.scenario_index < 4)
       ∧ (GameOver s ↔ s.scenario_index = 4))
    ∧ (∀ s e x out, step s e x = some out →
         Playing s ∧ s.scenario_index < out.2.scenario_index)
    ∧ (∀ s e x, GameOver s → step s e x = none) := by
  have hplay : ∀ s e x out, step s e x = some out → s.scenario_index < scenarios.length := by
    intro s e x out hstep
    rw [step_eq_some_iff] at hstep
    obtain ⟨sc, hc, -⟩ := hstep
    by_contra hge
    rw [currentScenario_of_ge s (le_of_not_lt hge)] at hc
    exact Option.noConfusion hc
  have hb : ∀ s : SessionState, Reachable s → s.scenario_index ≤ scenarios.length := by
    intro s h
    induction h with
    | init => decide
    | next s e x out hr hstep ih =>
        have hlt := hplay s e x out hstep
        rw [step_index s e x out hstep]
        exact hlt
  refine ⟨?_, ?_, ?_⟩
  · intro s h
    have h4 := hb s h
    refine ⟨h4, ?_, ?_⟩
    · unfold Playing
      simp [scenarios]
    · unfold GameOver Playing
      have h4' : s.scenario_index ≤ 4 := h4
      simp only [scenarios, List.length_cons, List.length_nil]
      omega
  · intro s e x out hstep
    refine ⟨hplay s e x out hstep, ?_⟩
    rw [step_index s e x out hstep]
    exact Nat.lt_succ_self _
  · intro s e x hgo
    unfold GameOver Playing at hgo
    unfold step
    rw [currentScenario_of_ge s (le_of_not_lt hgo)]

/-- Concrete instance of C6 at the initial state. -/
theorem state_machine_invariant_witness :
    initState.scenario_index ≤ scenarios.length
    ∧ (Playing initState ↔ initState.scenario_index < 4)
    ∧ (GameOver initState ↔ initState.scenario_index = 4) :=
  state_machine_invariant.1 initState Reachable.init

/-- The per-decision balance change of the scoring rule. -/
def decisionDelta (scenario : Scenario) (d : EntryChoice × ExitChoice) : Int :=
  (submitResult scenario d.1 d.2).2

/-- Replaying decisions adds exactly the scoring deltas of the scenarios
they are paired with, in order. -/
theorem runGame_balance (ds : List (EntryChoice × ExitChoice)) (s : SessionState) :
    (runGame s ds).balance = s.balance +
      (((scenarios.drop s.scenario_index).zip ds).map
        (fun p => decisionDelta p.1 p.2)).sum := by
  induction ds generalizing s with
  | nil => simp [runGame]
  | cons d ds ih =>
      by_cases hlt : s.scenario_index < scenarios.length
      · have hc := currentScenario_of_lt s hlt
        have hstep : step s d.1 d.2 =
            some ((submitResult (scenarios.get ⟨s.scenario_index, hlt⟩) d.1 d.2).1,
              { balance := s.balance +
                  (submitResult (scenarios.get ⟨s.scenario_index, hlt⟩) d.1 d.2).2,
                scenario_index := s.scenario_index + 1 }) := by
          unfold step
          rw [hc]
        unfold runGame
        rw [hstep, ih]
        rw [List.drop_eq_getElem_cons hlt, List.zip_cons_cons, List.map_cons, List.sum_cons]
        simp only [decisionDelta, List.get_eq_getElem]
        ring
      · have hstep : step s d.1 d.2 = none := by
          unfold step
          rw [currentScenario_of_ge s (le_of_not_lt hlt)]
        unfold runGame
        rw [hstep]
        rw [List.drop_eq_nil_of_le (le_of_not_lt hlt)]
        simp

/-- C5: the balance after any sequence of at most 4 submitted decisions is
10000 plus the sum of the per-submit deltas, and the game-over screen shows
the success banner exactly when the final balance exceeds 10000; at exactly
10000 the review banner shows. -/
theorem final_balance_and_banner (ds : List (EntryChoice × ExitChoice))
    (_h : ds.length ≤ scenarios.length) :
    (runGame initState ds).balance =
      10000 + ((scenarios.zip ds).map (fun p => decisionDelta p.1 p.2)).sum
    ∧ (∀ b : Int, gameOverBanner b =
        RenderItem.successBanner "Well done! You made profitable decisions." ↔ 10000 < b)
    ∧ gameOverBanner 10000 =
        RenderItem.errorBanner "You need more practice. Review the concepts and try again." := by
  refine ⟨?_, ?_, ?_⟩
  · have := runGame_balance ds initState
    simpa [initState] using this
  · intro b
    unfold gameOverBanner
    by_cases hb : b > 10000
    · simp [hb]
    · simp [hb]
  · rfl

/-- Concrete run of C5: skipping everything leaves the balance at exactly
10000 plus a zero delta sum. -/
theorem final_balance_and_banner_witness :
    (runGame initState [(EntryChoice.skip, ExitChoice.smart), (EntryChoice.skip, ExitChoice.smart),
        (EntryChoice.skip, ExitChoice.smart), (EntryChoice.skip, ExitChoice.smart)]).balance =
      10000 + ((scenarios.zip [(EntryChoice.skip, ExitChoice.smart),
        (EntryChoice.skip, ExitChoice.smart), (EntryChoice.skip, ExitChoice.smart),
        (EntryChoice.skip, ExitChoice.smart)]).map (fun p => decisionDelta p.1 p.2)).sum
    ∧ gameOverBanner 10000 =
        RenderItem.errorBanner "You need more practice. Review the concepts and try again." :=
  ⟨(final_balance_and_banner _ (by decide)).1, (final_balance_and_banner [] (by decide)).2.2⟩

/-- Every scoring delta lies between -300 and +500. -/
theorem decisionDelta_bounds (sc : Scenario) (d : EntryChoice × ExitChoice) :
    -300 ≤ decisionDelta sc d ∧ decisionDelta sc d ≤ 500 := by
  unfold decisionDelta submitResult
  split_ifs <;> norm_num

/-- Replaying decisions moves the balance by at most 300 down or 500 up
per decision. -/
theorem runGame_balance_bounds (ds : List (EntryChoice × ExitChoice)) (s : SessionState) :
    s.balance - 300 * (ds.length : Int) ≤ (runGame s ds).balance
    ∧ (runGame s ds).balance ≤ s.balance + 500 * (ds.length : Int) := by
  induction ds generalizing s with
  | nil => simp [runGame]
  | cons d ds ih =>
      cases hstep : step s d.1 d.2 with
      | none =>
          unfold runGame
          rw [hstep]
          simp only [List.length_cons]
          push_cast
          omega
      | some out =>
          obtain ⟨msg, s1⟩ := out
          obtain ⟨sc, hc, heq⟩ := (step_eq_some_iff s d.1 d.2 (msg, s1)).mp hstep
          simp only [Prod.mk.injEq] at heq
          obtain ⟨rfl, rfl⟩ := heq
          have hd := decisionDelta_bounds sc d
          unfold decisionDelta at hd
          have hb := ih ⟨s.balance + (submitResult sc d.1 d.2).2, s.scenario_index + 1⟩
          simp only [runGame, hstep, List.length_cons]
          simp only [] at hb
          push_cast at hb ⊢
          omega

/-- C9: after any k submitted decisions with k at most 4, the balance lies
between 10000 - 300k and 10000 + 500k; in particular it stays in
[8800, 12000] and is strictly positive. -/
theorem balance_stays_bounded (ds : List (EntryChoice × ExitChoice))
    (h : ds.length ≤ 4) :
    10000 - 300 * (ds.length : Int) ≤ (runGame initState ds).balance
    ∧ (runGame initState ds).balance ≤ 10000 + 500 * (ds.length : Int)
    ∧ 8800 ≤ (runGame initState ds).balance
    ∧ (runGame initState ds).balance ≤ 12000
    ∧ 0 < (runGame initState ds).balance := by
  have hb := runGame_balance_bounds ds initState
  have h1 : initState.balance = 10000 := rfl
  rw [h1] at hb
  refine ⟨hb.1, hb.2, ?_, ?_, ?_⟩ <;> (push_cast at *; omega)

/-- Concrete run of C9: an all-in run of four wrong entries still ends at
8800, inside the bounds. -/
theorem balance_stays_bounded_witness :
    10000 - 300 * (([(EntryChoice.short, ExitChoice.greedy), (EntryChoice.short, ExitChoice.greedy),
        (EntryChoice.short, ExitChoice.greedy), (EntryChoice.short, ExitChoice.greedy)] :
        List (EntryChoice × ExitChoice)).length : Int) ≤
      (runGame initState [(EntryChoice.short, ExitChoice.greedy), (EntryChoice.short, ExitChoice.greedy),
        (EntryChoice.short, ExitChoice.greedy), (EntryChoice.short, ExitChoice.greedy)]).balance
    ∧ (runGame initState [(EntryChoice.short, ExitChoice.greedy), (EntryChoice.short, ExitChoice.greedy),
        (EntryChoice.short, ExitChoice.greedy), (EntryChoice.short, ExitChoice.greedy)]).balance ≤
      10000 + 500 * (([(EntryChoice.short, ExitChoice.greedy), (EntryChoice.short, ExitChoice.greedy),
        (EntryChoice.short, ExitChoice.greedy), (EntryChoice.short, ExitChoice.greedy)] :
        List (EntryChoice × ExitChoice)).length : Int)
    ∧ 8800 ≤ (runGame initState [(EntryChoice.short, ExitChoice.greedy), (EntryChoice.short, ExitChoice.greedy),
        (EntryChoice.short, ExitChoice.greedy), (EntryChoice.short, ExitChoice.greedy)]).balance
    ∧ (runGame initState [(EntryChoice.short, ExitChoice.greedy), (EntryChoice.short, ExitChoice.greedy),
        (EntryChoice.short, ExitChoice.greedy), (EntryChoice.short, ExitChoice.greedy)]).balance ≤ 12000
    ∧ 0 < (runGame initState [(EntryChoice.short, ExitChoice.greedy), (EntryChoice.short, ExitChoice.greedy),
        (EntryChoice.short, ExitChoice.greedy), (EntryChoice.short, ExitChoice.greedy)]).balance :=
  balance_stays_bounded _ (by decide)

/-- C10: the outcome of a submit press does not depend on the current
balance: states sharing a `scenario_index` produce the same availability,
the same message and the same balance delta for the same choices. -/
theorem outcome_balance_independent (t1 t2 : SessionState)
    (h : t1.scenario_index = t2.scenario_index) (e : EntryChoice) (x : ExitChoice) :
    ((step t1 e x).isNone ↔ (step t2 e x).isNone)
    ∧ ∀ m1 o1 m2 o2, step t1 e x = some (m1, o1) → step t2 e x = some (m2, o2) →
        m1 = m2 ∧ o1.balance - t1.balance = o2.balance - t2.balance
        ∧ o1.scenario_index = o2.scenario_index := by
  have hc : currentScenario t1 = currentScenario t2 := by
    unfold currentScenario
    rw [h]
  constructor
  · unfold step
    rw [hc]
    cases currentScenario t2 <;> simp
  · intro m1 o1 m2 o2 h1 h2
    obtain ⟨sc1, hc1, heq1⟩ := (step_eq_some_iff t1 e x (m1, o1)).mp h1
    obtain ⟨sc2, hc2, heq2⟩ := (step_eq_some_iff t2 e x (m2, o2)).mp h2
    rw [hc, hc2] at hc1
    obtain rfl : sc2 = sc1 := Option.some.injEq .. ▸ hc1
    simp only [Prod.mk.injEq] at heq1 heq2
    obtain ⟨rfl, rfl⟩ := heq1
    obtain ⟨rfl, rfl⟩ := heq2
    refine ⟨rfl, ?_, h ▸ rfl⟩
    simp only []
    ring

/-- Concrete instance of C10: a rich and a poor state at the first scenario
get the same message and the same -300 delta for the same wrong entry. -/
theorem outcome_balance_independent_witness :
    ((step { balance := 10000, scenario_index := 0 } EntryChoice.long ExitChoice.smart).isNone ↔
      (step { balance := 0, scenario_index := 0 } EntryChoice.long ExitChoice.smart).isNone)
    ∧ ("Wrong entry type. You entered against the setup." =
        "Wrong entry type. You entered against the setup."
       ∧ ({ balance := 9700, scenario_index := 1 } : SessionState).balance -
           ({ balance := 10000, scenario_index := 0 } : SessionState).balance =
         ({ balance := -300, scenario_index := 1 } : SessionState).balance -
           ({ balance := 0, scenario_index := 0 } : SessionState).balance
       ∧ ({ balance := 9700, scenario_index := 1 } : SessionState).scenario_index =
           ({ balance := -300, scenario_index := 1 } : SessionState).scenario_index) :=
  ⟨(outcome_balance_independent { balance := 10000, scenario_index := 0 }
      { balance := 0, scenario_index := 0 } rfl EntryChoice.long ExitChoice.smart).1,
   (outcome_balance_independent { balance := 10000, scenario_index := 0 }
      { balance := 0, scenario_index := 0 } rfl EntryChoice.long ExitChoice.smart).2
     "Wrong entry type. You entered against the setup." { balance := 9700, scenario_index := 1 }
     "Wrong entry type. You entered against the setup." { balance := -300, scenario_index := 1 }
     rfl rfl⟩

/-- C7: rendering the page without a submit press, including reading the
scenario list and plotting its chart, leaves the session state unchanged;
the state changes exactly by the scoring rule when a decision is submitted. -/
theorem render_preserves_state (s : SessionState) (price : PriceSeries) :
    (show_game s price none).2 = s
    ∧ ∀ e x sc, currentScenario s = some sc →
        (show_game s price (some (e, x))).2 =
          { balance := s.balance + (submitResult sc e x).2,
            scenario_index := s.scenario_index + 1 } := by
  constructor
  · unfold show_game
    cases hc : currentScenario s <;> simp
  · intro e x sc hc
    unfold show_game
    rw [hc]

/-- Concrete instance of C7: rendering the fresh page changes nothing, and
submitting a skip applies exactly the zero delta of the scoring rule. -/
theorem render_preserves_state_witness :
    (show_game initState (fun _ => 0) none).2 = initState
    ∧ (show_game initState (fun _ => 0) (some (EntryChoice.skip, ExitChoice.smart))).2 =
        { balance := initState.balance +
            (submitResult (scenarios.get ⟨0, by decide⟩) EntryChoice.skip ExitChoice.smart).2,
          scenario_index := initState.scenario_index + 1 } :=
  ⟨(render_preserves_state initState (fun _ => 0)).1,
   (render_preserves_state initState (fun _ => 0)).2 EntryChoice.skip ExitChoice.smart
     (scenarios.get ⟨0, by decide⟩) rfl⟩

/-- C8: the liquidity chart plots the base 10-point series with exactly +5
added at index 6 and 6 subtracted at index 7, every other point unchanged;
both perturbation indices lie inside the 10-point series. -/
theorem liquidity_chart_series (price : PriceSeries) :
    (plot_chart ChartType.liquidity price).series =
      (fun i => if i = 6 then price i + 5 else if i = 7 then price i - 6 else price i)
    ∧ 6 < numPoints ∧ 7 < numPoints := by
  refine ⟨?_, by decide, by decide⟩
  funext i
  simp only [plot_chart, Function.update_apply]
  have h76 : ¬((7 : Fin numPoints) = 6) := by decide
  have h67 : ¬((6 : Fin numPoints) = 7) := by decide
  by_cases h7 : i = 7
  · subst h7
    simp [h76]
  · by_cases h6 : i = 6
    · subst h6
      simp [h67, h76]
    · simp [h6, h7]
